import Mathlib

set_option maxRecDepth 8000

/-!
Shallow embedding of `src/agent/agent.py` (a host log-collection agent) and
proofs settling the frozen claims C1..C10 about it.  Each definition is
translated from the Python source; the line numbers in the comments refer to
`src/agent/agent.py`.
-/

namespace Agent

/-! ## Event data model (`make_event`, lines 108-116) -/

/-- Result of `extract_meta` (lines 100-106): optional ip and user strings. -/
structure EventMeta where
  ip : Option String
  user : Option String
deriving DecidableEq

/-- An event as built by `make_event` (lines 108-116): the dict keys
`client_uuid`, `ts`, `source`, `msg`, `meta`, `collector.host`. -/
structure Event where
  client_uuid : String
  ts : Int
  source : String
  msg : String
  meta : EventMeta
  host : String
deriving DecidableEq

/-! ## JSON documents

A small JSON value type used to state what `json.dump` (line 129) writes into
a spool file versus what `requests.post(..., json=payload)` (lines 138-141)
puts on the wire. -/

inductive Json where
  | null : Json
  | str : String → Json
  | num : Int → Json
  | arr : List Json → Json
  | obj : List (String × Json) → Json

/-- JSON rendering of an optional string (`None` becomes `null`). -/
def optStr : Option String → Json
  | none => Json.null
  | some s => Json.str s

/-- The JSON object serialized for one event, following the dict literal of
`make_event` (lines 109-116). -/
def eventToJson (e : Event) : Json :=
  Json.obj [
    ("client_uuid", Json.str e.client_uuid),
    ("ts", Json.num e.ts),
    ("source", Json.str e.source),
    ("msg", Json.str e.msg),
    ("meta", Json.obj [("ip", optStr e.meta.ip), ("user", optStr e.meta.user)]),
    ("collector", Json.obj [("host", Json.str e.host)])
  ]

/-- The POST body built by `send_batch_http` (line 138):
`payload = {"events": batch}`. -/
def postBody (batch : List Event) : Json :=
  Json.obj [("events", Json.arr (batch.map eventToJson))]

/-- The JSON document `spool_batch` writes to a spool file (line 129):
`json.dump(batch, fh)` — the bare list, with no wrapping object. -/
def spoolDoc (batch : List Event) : Json :=
  Json.arr (batch.map eventToJson)

/-- The wire body produced when a loaded spool document is replayed:
`flush_spool_once` passes `json.load`'s result to `send_batch_http`
(lines 156-157), which wraps it as `{"events": ...}` (line 138). -/
def replayBody (loaded : Json) : Json :=
  Json.obj [("events", loaded)]

/-! ## Spool file names (`spool_batch`, line 126)

The f-string `f"batch-{int(time.time())}-{uuid.uuid4().hex}.json"`, modelled
over lists of characters.  `decimal` renders the integer timestamp the way
Python formats a nonnegative int. -/

/-- The character for a single decimal digit. -/
def digitChar (d : Nat) : Char := ("0123456789".toList).getD d '0'

/-- Fuelled digit accumulator for decimal rendering. -/
def decimalAux : Nat → Nat → List Char → List Char
  | 0, _, acc => acc
  | fuel + 1, n, acc =>
    if n < 10 then digitChar (n % 10) :: acc
    else decimalAux fuel (n / 10) (digitChar (n % 10) :: acc)

/-- Decimal rendering of a natural number, most significant digit first. -/
def decimal (n : Nat) : List Char := decimalAux (n + 1) n []

/-- The spool file name of line 126, with the timestamp and the random hex
token as parameters. -/
def spoolName (t : Nat) (token : List Char) : List Char :=
  ("batch-".toList) ++ decimal t ++ ['-'] ++ token ++ (".json".toList)

def isDigitC (c : Char) : Bool := ('0' ≤ c && c ≤ '9')

def isHexDigitC (c : Char) : Bool := ('0' ≤ c && c ≤ '9') || ('a' ≤ c && c ≤ 'f')

/-- A name of the shape `batch-<digits>-<hex-token>.json`. -/
def IsBatchName (name : List Char) : Prop :=
  ∃ ds token, ds ≠ [] ∧ ds.all isDigitC = true ∧ token ≠ [] ∧
    token.all isHexDigitC = true ∧
    name = ("batch-".toList) ++ ds ++ ['-'] ++ token ++ (".json".toList)

theorem isDigitC_digitChar_mod (n : Nat) : isDigitC (digitChar (n % 10)) = true := by
  have h : n % 10 < 10 := Nat.mod_lt _ (by omega)
  have hall : ∀ m, m < 10 → isDigitC (digitChar m) = true := by decide
  exact hall _ h

theorem decimalAux_all_digits (fuel : Nat) : ∀ n acc, acc.all isDigitC = true →
    (decimalAux fuel n acc).all isDigitC = true := by
  induction fuel with
  | zero => intro n acc h; simpa [decimalAux] using h
  | succ fuel ih =>
    intro n acc h
    by_cases hn : n < 10
    · simp [decimalAux, hn, List.all_cons, isDigitC_digitChar_mod, h]
    · simp only [decimalAux, hn, if_false]
      exact ih (n / 10) _ (by simp [List.all_cons, isDigitC_digitChar_mod, h])

theorem decimalAux_ne_nil (fuel : Nat) : ∀ n acc, (fuel ≠ 0 ∨ acc ≠ []) →
    decimalAux fuel n acc ≠ [] := by
  induction fuel with
  | zero =>
    intro n acc h
    simpa [decimalAux] using h.resolve_left (by simp)
  | succ fuel ih =>
    intro n acc _
    by_cases hn : n < 10
    · simp [decimalAux, hn]
    · simp only [decimalAux, hn, if_false]
      exact ih (n / 10) _ (Or.inr (by simp))

theorem decimal_all_digits (n : Nat) : (decimal n).all isDigitC = true :=
  decimalAux_all_digits (n + 1) n [] rfl

theorem decimal_ne_nil (n : Nat) : decimal n ≠ [] :=
  decimalAux_ne_nil (n + 1) n [] (Or.inl (by omega))

/-! ## Spool byte quota (`spool_batch`, lines 118-132)

For the quota claim (C8) only the file sizes matter: the spool directory is a
list of file byte sizes, and `spool_batch` skips the write when the current
total already exceeds `MAX_SPOOL_BYTES` (lines 120-123). -/

/-- Total byte size of the spool directory (line 120's sum of `st_size`). -/
def spoolTotal (files : List Nat) : Nat := files.sum

/-- `spool_batch` restricted to its effect on the file-size multiset:
skip when `total_spool > MAX_SPOOL_BYTES` (line 121), else write a file of
the batch's serialized size. -/
def spool_batch (maxBytes sz : Nat) (files : List Nat) : List Nat :=
  if maxBytes < spoolTotal files then files else files ++ [sz]

/-- Operations that change the spool directory contents: a batch write
(`spool_batch`) or a file removal (`f.unlink()` during a drain). -/
inductive SpoolOp where
  | write (sz : Nat) : SpoolOp
  | deleteAt (i : Nat) : SpoolOp

structure SpoolModel where
  files : List Nat
  lastWritten : Nat
deriving DecidableEq

def applySpoolOp (maxBytes : Nat) (s : SpoolModel) : SpoolOp → SpoolModel
  | SpoolOp.write sz =>
    ⟨spool_batch maxBytes sz s.files,
      if maxBytes < spoolTotal s.files then s.lastWritten else sz⟩
  | SpoolOp.deleteAt i => ⟨s.files.eraseIdx i, s.lastWritten⟩

/-- Run a sequence of spool operations starting from an empty spool. -/
def runSpool (maxBytes : Nat) (ops : List SpoolOp) : SpoolModel :=
  ops.foldl (applySpoolOp maxBytes) ⟨[], 0⟩

theorem sum_eraseIdx_le (l : List Nat) : ∀ i, (l.eraseIdx i).sum ≤ l.sum := by
  induction l with
  | nil => intro i; simp [List.eraseIdx]
  | cons a t ih =>
    intro i
    cases i with
    | zero => simp [List.eraseIdx]
    | succ j =>
      have := ih j
      simp [List.eraseIdx]
      omega

theorem applySpoolOp_bound (maxBytes : Nat) (s : SpoolModel) (op : SpoolOp)
    (h : spoolTotal s.files ≤ maxBytes + s.lastWritten) :
    spoolTotal (applySpoolOp maxBytes s op).files ≤
      maxBytes + (applySpoolOp maxBytes s op).lastWritten := by
  cases op with
  | write sz =>
    by_cases hq : maxBytes < spoolTotal s.files
    · simpa [applySpoolOp, spool_batch, hq] using h
    · simp only [applySpoolOp, spool_batch, hq, if_false]
      simp only [spoolTotal, List.sum_append] at *
      simp only [List.sum_cons, List.sum_nil]
      omega
  | deleteAt i =>
    have := sum_eraseIdx_le s.files i
    simp only [applySpoolOp, spoolTotal] at *
    omega

theorem runSpool_aux_bound (maxBytes : Nat) (ops : List SpoolOp) :
    ∀ s : SpoolModel, spoolTotal s.files ≤ maxBytes + s.lastWritten →
    spoolTotal (ops.foldl (applySpoolOp maxBytes) s).files ≤
      maxBytes + (ops.foldl (applySpoolOp maxBytes) s).lastWritten := by
  induction ops with
  | nil => intro s h; simpa using h
  | cons op rest ih =>
    intro s h
    exact ih _ (applySpoolOp_bound maxBytes s op h)

/-- C8: after any sequence of spool writes and deletes, the total byte size of
the spool files is at most `MAX_SPOOL_BYTES` plus the size of the last batch
actually written, because `spool_batch` checks the total against the quota
before every write (line 121) and skips the write when the quota is already
exceeded. -/
theorem spool_quota_bound (maxBytes : Nat) (ops : List SpoolOp) :
    spoolTotal (runSpool maxBytes ops).files ≤
      maxBytes + (runSpool maxBytes ops).lastWritten
    ∧ ∀ sz files, maxBytes < spoolTotal files →
        spool_batch maxBytes sz files = files := by
  constructor
  · exact runSpool_aux_bound maxBytes ops ⟨[], 0⟩ (by simp [spoolTotal])
  · intro sz files h
    simp [spool_batch, h]

/-- Witness for C8 at a concrete operation sequence: two writes that fit, one
that is skipped by the quota check, and one delete. -/
theorem spool_quota_bound_witness :
    spoolTotal (runSpool 1000 [SpoolOp.write 600, SpoolOp.write 500,
        SpoolOp.write 100, SpoolOp.deleteAt 0]).files ≤
      1000 + (runSpool 1000 [SpoolOp.write 600, SpoolOp.write 500,
        SpoolOp.write 100, SpoolOp.deleteAt 0]).lastWritten :=
  (spool_quota_bound 1000 [SpoolOp.write 600, SpoolOp.write 500,
    SpoolOp.write 100, SpoolOp.deleteAt 0]).1

/-! ## Periodic spool drain gate (`background_flusher`, lines 256-268)

The flusher loop sleeps 0.5 s between ticks and triggers the periodic spool
drain when `int(time.time()) % 30 == 0` (line 261).  Time is modelled in
deciseconds so that the 0.5 s tick spacing is exact. -/

/-- The gate of line 261 at a tick occurring `tds` deciseconds after the
epoch: `int(time.time()) % 30 == 0`. -/
def periodic_drain_gate (tds : Nat) : Bool := (tds / 10) % 30 == 0

/-- How many flusher ticks in the half-open window `[lo, hi)` (deciseconds)
trigger the periodic spool drain. -/
def drainsInWindow (ticks : List Nat) (lo hi : Nat) : Nat :=
  (ticks.filter (fun t => decide (lo ≤ t) && decide (t < hi) &&
    periodic_drain_gate t)).length

/-- C9: the periodic spool drain does not fire once per 30-second window.
Two consecutive flusher ticks 0.5 s apart, at 30.0 s and 30.5 s, both satisfy
the gate `int(time.time()) % 30 == 0`, so the drain fires twice within the
window [30 s, 60 s); and a tick sequence that stalls across second 30 (tick
at 29.9 s, then, after a 1.5 s stall, every 0.5 s from 31.4 s to 59.9 s)
never satisfies the gate, so that whole window is skipped.  This contradicts
the claim that the drain fires exactly once per roughly-30-second window. -/
theorem periodic_drain_gate_misfires :
    drainsInWindow [300, 305] 300 600 = 2
    ∧ drainsInWindow (299 :: (List.range 58).map (fun k => 314 + 5 * k)) 300 600 = 0 := by
  constructor
  · decide
  · decide

/-! ## HTTP transport (`send_batch_http`, lines 134-149)

The network is abstracted as an `HttpResult`: either a response with a status
code, or a `requests.RequestException`.  `send_batch_http` returns `True`
exactly when the status is 200, 201 or 202 (line 142) and `False` on any
other status or on an exception (lines 144-149). -/

inductive HttpResult where
  | status (code : Nat) : HttpResult
  | exn : HttpResult
deriving DecidableEq

/-- The boolean outcome of `send_batch_http` given the transport's answer. -/
def send_batch_http (r : HttpResult) : Bool :=
  match r with
  | HttpResult.status c => c == 200 || c == 201 || c == 202
  | HttpResult.exn => false

/-! ## Spool drain (`flush_spool_once`, lines 151-170)

A spool directory entry is a file with a name, an mtime, and the outcome of
`json.load` on its content (`ok batch` when the content parses, `corrupt`
when `json.load` raises).  The drain sorts all regular files by mtime
(line 152) and walks them: a file whose content fails to parse is deleted in
the `except` branch (lines 164-169); a parsed file is POSTed, deleted on
success, and on transport failure the loop returns keeping the file
(lines 157-163). -/

inductive SpoolRead where
  | ok (batch : List Event) : SpoolRead
  | corrupt : SpoolRead
deriving DecidableEq

/-- Whether `json.load` raised on this content (`except` branch, line 164). -/
def isCorrupt : SpoolRead → Bool
  | SpoolRead.ok _ => false
  | SpoolRead.corrupt => true

structure SpoolFile where
  name : List Char
  mtime : Nat
  parsed : SpoolRead
deriving DecidableEq

/-- Outcome of one spool drain: the files still present, the files whose
batch was POSTed with a success status, and the boolean the Python function
returns (line 163 / line 170). -/
structure DrainState where
  remaining : List SpoolFile
  sentOk : List SpoolFile
  result : Bool
deriving DecidableEq

/-- Line 152: `sorted(..., key=lambda p: p.stat().st_mtime)` (stable,
ascending). -/
def sortByMtime (files : List SpoolFile) : List SpoolFile :=
  List.insertionSort (fun a b => a.mtime ≤ b.mtime) files

/-- The `for f in files` loop of lines 153-169.  `tr k` is the transport's
answer to the k-th POST of this drain. -/
def drainLoop (tr : Nat → HttpResult) : Nat → List SpoolFile → DrainState
  | _, [] => ⟨[], [], true⟩
  | k, f :: rest =>
    if isCorrupt f.parsed then drainLoop tr k rest
    else if send_batch_http (tr k) then
      let r := drainLoop tr (k + 1) rest
      ⟨r.remaining, f :: r.sentOk, r.result⟩
    else ⟨f :: rest, [], false⟩

/-- `flush_spool_once` (lines 151-170). -/
def flush_spool_once (tr : Nat → HttpResult) (files : List SpoolFile) :
    DrainState :=
  drainLoop tr 0 (sortByMtime files)

theorem isCorrupt_iff (r : SpoolRead) :
    isCorrupt r = true ↔ r = SpoolRead.corrupt := by
  cases r <;> simp [isCorrupt]

theorem drainLoop_result_true (tr : Nat → HttpResult) :
    ∀ (l : List SpoolFile) (k : Nat), (drainLoop tr k l).result = true →
      (drainLoop tr k l).remaining = [] := by
  intro l
  induction l with
  | nil => intro k _; rfl
  | cons f rest ih =>
    intro k h
    by_cases hc : isCorrupt f.parsed = true
    · simp only [drainLoop, hc, if_true] at h ⊢
      exact ih k h
    · by_cases hs : send_batch_http (tr k) = true
      · simp only [drainLoop, hc, hs, if_true, if_false] at h ⊢
        exact ih (k + 1) h
      · simp [drainLoop, hc, hs] at h

theorem drainLoop_deleted (tr : Nat → HttpResult) :
    ∀ (l : List SpoolFile) (k : Nat) (f : SpoolFile), f ∈ l →
      f ∉ (drainLoop tr k l).remaining →
      f.parsed = SpoolRead.corrupt ∨ f ∈ (drainLoop tr k l).sentOk := by
  intro l
  induction l with
  | nil => intro k f hf; exact absurd hf (by simp)
  | cons g rest ih =>
    intro k f hf hnot
    by_cases hc : isCorrupt g.parsed = true
    · simp only [drainLoop, hc, if_true] at hnot ⊢
      rcases List.mem_cons.mp hf with hfg | hfr
      · exact Or.inl (hfg ▸ (isCorrupt_iff g.parsed).mp hc)
      · exact ih k f hfr hnot
    · by_cases hs : send_batch_http (tr k) = true
      · simp only [drainLoop, hc, hs, if_true, if_false] at hnot ⊢
        rcases List.mem_cons.mp hf with hfg | hfr
        · exact Or.inr (by simp [hfg])
        · rcases ih (k + 1) f hfr hnot with h | h
          · exact Or.inl h
          · exact Or.inr (List.mem_cons_of_mem _ h)
      · simp only [drainLoop, hc, hs, if_false] at hnot
        exact absurd hf hnot

theorem drainLoop_failure_stop (tr : Nat → HttpResult) :
    ∀ (l : List SpoolFile) (k : Nat), (drainLoop tr k l).result = false →
      ∃ g rest2, (drainLoop tr k l).remaining = g :: rest2
        ∧ g.parsed ≠ SpoolRead.corrupt
        ∧ List.IsSuffix (g :: rest2) l := by
  intro l
  induction l with
  | nil => intro k h; exact absurd h (by simp [drainLoop])
  | cons f rest ih =>
    intro k h
    by_cases hc : isCorrupt f.parsed = true
    · simp only [drainLoop, hc, if_true] at h ⊢
      obtain ⟨g, rest2, h1, h2, t, ht⟩ := ih k h
      exact ⟨g, rest2, h1, h2, f :: t, by simp [ht]⟩
    · by_cases hs : send_batch_http (tr k) = true
      · simp only [drainLoop, hc, hs, if_true, if_false] at h ⊢
        obtain ⟨g, rest2, h1, h2, t, ht⟩ := ih (k + 1) h
        exact ⟨g, rest2, h1, h2, f :: t, by simp [ht]⟩
      · simp only [drainLoop, hc, hs, if_false]
        refine ⟨f, rest, rfl, ?_, [], rfl⟩
        intro hcon
        rw [hcon] at hc
        exact hc rfl

theorem drainLoop_sentOk_parsed (tr : Nat → HttpResult) :
    ∀ (l : List SpoolFile) (k : Nat) (f : SpoolFile),
      f ∈ (drainLoop tr k l).sentOk → f.parsed ≠ SpoolRead.corrupt := by
  intro l
  induction l with
  | nil => intro k f hf; exact absurd hf (by simp [drainLoop])
  | cons g rest ih =>
    intro k f hf
    by_cases hc : isCorrupt g.parsed = true
    · simp only [drainLoop, hc, if_true] at hf
      exact ih k f hf
    · by_cases hs : send_batch_http (tr k) = true
      · simp only [drainLoop, hc, hs, if_true, if_false] at hf
        rcases List.mem_cons.mp hf with hfg | hfr
        · subst hfg
          intro hcon
          rw [hcon] at hc
          exact hc rfl
        · exact ih (k + 1) f hfr
      · simp only [drainLoop, hc, hs, if_false] at hf
        exact absurd hf (by simp)

/-- C5: a spool file is deleted by a drain only if the POST that carried its
batch returned a success status (it is then recorded in `sentOk`) or its
content failed to deserialize (it is destroyed eagerly as corrupt and the
drain continues); on a transport failure the failing file is kept and the
drain stops, leaving the untried tail of the mtime-sorted directory intact;
and a POST counts as successful exactly for the statuses 200, 201, 202. -/
theorem flush_spool_delete_policy (tr : Nat → HttpResult)
    (files : List SpoolFile) :
    (∀ f, f ∈ sortByMtime files → f ∉ (flush_spool_once tr files).remaining →
      f.parsed = SpoolRead.corrupt ∨ f ∈ (flush_spool_once tr files).sentOk)
    ∧ ((flush_spool_once tr files).result = false →
        ∃ g rest2, (flush_spool_once tr files).remaining = g :: rest2
          ∧ g.parsed ≠ SpoolRead.corrupt
          ∧ List.IsSuffix (g :: rest2) (sortByMtime files))
    ∧ (∀ c, send_batch_http (HttpResult.status c) = true ↔
        (c = 200 ∨ c = 201 ∨ c = 202)) := by
  refine ⟨?_, ?_, ?_⟩
  · intro f hf hnot
    exact drainLoop_deleted tr (sortByMtime files) 0 f hf hnot
  · intro h
    exact drainLoop_failure_stop tr (sortByMtime files) 0 h
  · intro c
    simp [send_batch_http, or_assoc]

/-- A concrete event used in concrete scenarios below. -/
def ev0 : Event :=
  ⟨"11e6", 1700000000, "/var/log/auth.log",
    "Failed password for user alice from 10.0.0.5", ⟨some ("10.0.0.5"), some ("alice")⟩,
    "web-01"⟩

/-- Spool files for the C5 witness scenario: two parseable batches around one
corrupt file; the transport accepts the first POST and then times out. -/
def spoolA : SpoolFile := ⟨"batch-1-aa.json".toList, 1, SpoolRead.ok [ev0]⟩

def spoolBad : SpoolFile := ⟨"batch-2-bb.json".toList, 2, SpoolRead.corrupt⟩

def spoolB : SpoolFile := ⟨"batch-3-cc.json".toList, 3, SpoolRead.ok [ev0]⟩

def trOneThenFail (k : Nat) : HttpResult :=
  if k = 0 then HttpResult.status 200 else HttpResult.exn

/-- Witness for C5: in the concrete scenario the first file was deleted, and
the theorem instance certifies it was either corrupt or acknowledged. -/
theorem flush_spool_delete_policy_witness :
    spoolA.parsed = SpoolRead.corrupt
    ∨ spoolA ∈ (flush_spool_once trOneThenFail [spoolA, spoolBad, spoolB]).sentOk :=
  (flush_spool_delete_policy trOneThenFail [spoolA, spoolBad, spoolB]).1
    spoolA (by decide) (by decide)

/-- A file in the spool directory that is not a recognized batch file: its
name does not match the batch pattern and its content is not valid JSON. -/
def readmeFile : SpoolFile := ⟨"README.txt".toList, 7, SpoolRead.corrupt⟩

/-- C4 counterexample: `flush_spool_once` does not leave unrecognized files
untouched.  A file named `README.txt` (not a batch name) whose content does
not parse is deleted by the drain's corrupt-file branch (lines 164-169): the
spool directory is empty afterwards. -/
theorem drain_deletes_unrecognized :
    (¬ IsBatchName readmeFile.name)
    ∧ (flush_spool_once (fun _ => HttpResult.status 200) [readmeFile]).remaining
        = [] := by
  constructor
  · rintro ⟨ds, token, -, -, -, -, heq⟩
    have h1 : (readmeFile.name).head? = some ('R') := rfl
    rw [heq] at h1
    have h2 : (("batch-".toList) ++ ds ++ ['-'] ++ token ++ (".json".toList)).head?
        = some ('b') := rfl
    rw [h2] at h1
    exact absurd h1 (by decide)
  · decide

/-- C4 amended: the drain does not filter by file name or recognized format:
every regular file in the spool directory is processed in mtime order — a
file whose content fails to parse is deleted eagerly and never POSTed, and a
file that parses is POSTed and deleted on success — so a drain in which no
transport failure occurs leaves the spool directory empty, recognized batch
file or not. -/
theorem drain_processes_every_file (tr : Nat → HttpResult)
    (files : List SpoolFile) :
    ((flush_spool_once tr files).result = true →
      (flush_spool_once tr files).remaining = [])
    ∧ (∀ f, f ∈ (flush_spool_once tr files).sentOk →
        f.parsed ≠ SpoolRead.corrupt) := by
  constructor
  · intro h
    exact drainLoop_result_true tr (sortByMtime files) 0 h
  · intro f hf
    exact drainLoop_sentOk_parsed tr (sortByMtime files) 0 f hf

/-- Witness for C4's amended statement: with an accepting transport, draining
a directory holding one unrecognized corrupt file and one batch file leaves
nothing behind. -/
theorem drain_processes_every_file_witness :
    (flush_spool_once (fun _ => HttpResult.status 200) [readmeFile, spoolA]).remaining
      = [] :=
  (drain_processes_every_file (fun _ => HttpResult.status 200)
    [readmeFile, spoolA]).1 (by decide)

/-! ## Spool document shape (C3) -/

/-- C3 counterexample: the JSON document written to a spool file is not
identical in shape to the POST body.  For the one-event batch `[ev0]`,
`spool_batch` writes the bare array (line 129: `json.dump(batch, fh)`) while
the POST body is the object `{"events": [...]}` (line 138). -/
theorem spool_doc_not_post_body : spoolDoc [ev0] ≠ postBody [ev0] := by
  intro h
  simp only [spoolDoc, postBody] at h
  exact Json.noConfusion h

/-- C3 amended: a spool file written on a failed live send contains one JSON
document which is the bare events array of the POST body (not the wrapping
`{"events": ...}` object), and its name matches
`batch-<unix-secs>-<hex-token>.json`; replaying the file still reproduces
exactly the original wire body, because `flush_spool_once` hands the loaded
array to `send_batch_http`, which re-wraps it as `{"events": ...}`. -/
theorem spool_file_shape (b : List Event) (t : Nat) (token : List Char)
    (h1 : token ≠ []) (h2 : token.all isHexDigitC = true) :
    postBody b = Json.obj [("events", spoolDoc b)]
    ∧ replayBody (spoolDoc b) = postBody b
    ∧ IsBatchName (spoolName t token) := by
  refine ⟨rfl, rfl, decimal t, token, decimal_ne_nil t, decimal_all_digits t,
    h1, h2, rfl⟩

/-- Witness for C3's amended statement at a concrete batch, timestamp and
hex token. -/
theorem spool_file_shape_witness :
    postBody [ev0] = Json.obj [("events", spoolDoc [ev0])]
    ∧ replayBody (spoolDoc [ev0]) = postBody [ev0]
    ∧ IsBatchName (spoolName 1700000000 ['0', 'a', 'f']) :=
  spool_file_shape [ev0] 1700000000 ['0', 'a', 'f'] (by decide) (by decide)

/-! ## Buffer flush (`attempt_flush_buffer`, lines 172-188)

State: the shared buffer and `_last_flush`.  Times are integers (the two
`time.time()` calls of lines 177 and 188 are passed in as `now` and `endT`;
`endT` is the clock reading after the HTTP send completes).  The transport's
answer to the live POST is `tr`.  The outcome records what the call did:
whether `flush_spool_once` was invoked (line 182), the body of the live POST
if one was made (line 183), and the batch handed to `spool_batch` if the send
failed (line 185). -/

structure Cfg where
  batchSize : Nat
  flushInterval : Int
deriving DecidableEq

structure FlushState where
  buffer : List Event
  lastFlush : Int
deriving DecidableEq

structure FlushOutcome where
  state : FlushState
  spoolDrained : Bool
  posted : Option (List Event)
  spooled : Option (List Event)
deriving DecidableEq

/-- `attempt_flush_buffer` (lines 172-188): return immediately when the
buffer is empty (line 175) or when, without `force`, both the size and the
age trigger are below threshold (line 177); otherwise snapshot and clear the
buffer (lines 179-180), drain the spool (line 182), POST the batch
(line 183), spool it on failure (line 185), and set `_last_flush` to the
clock reading after the send (line 188). -/
def attempt_flush_buffer (cfg : Cfg) (force : Bool) (now endT : Int)
    (tr : HttpResult) (s : FlushState) : FlushOutcome :=
  if s.buffer = [] then ⟨s, false, none, none⟩
  else if force = false ∧ s.buffer.length < cfg.batchSize
      ∧ now - s.lastFlush < cfg.flushInterval then ⟨s, false, none, none⟩
  else if send_batch_http tr then
    ⟨⟨[], endT⟩, true, some s.buffer, none⟩
  else
    ⟨⟨[], endT⟩, true, some s.buffer, some s.buffer⟩

def cfg0 : Cfg := ⟨25, 2⟩

/-- C7 counterexample: the drain condition claimed by the spec —
"a batch is returned iff `count ≥ min_size` or `now − last_flush ≥ max_age`"
— is false on the code.  With the default configuration (`BATCH_SIZE = 25`,
`FLUSH_INTERVAL = 2`), an empty buffer whose last flush lies 100 seconds in
the past satisfies the age trigger, yet `attempt_flush_buffer` returns
without producing a batch because of the `if not _buffer: return` guard of
line 175. -/
theorem drain_iff_fails_on_empty_buffer :
    ¬ (((attempt_flush_buffer cfg0 false 100 100 (HttpResult.status 200)
          ⟨[], 0⟩).posted ≠ none) ↔
        (cfg0.batchSize ≤ ([] : List Event).length
          ∨ cfg0.flushInterval ≤ (100 : Int) - 0)) := by
  decide

/-- C7 amended: `attempt_flush_buffer` produces a batch iff the buffer is
nonempty and (`force` is set, or the buffered count is at least
`BATCH_SIZE`, or `now − last_flush` is at least `FLUSH_INTERVAL`); when it
drains, the batch is exactly the buffered events in enqueue order, the
buffer is emptied, and `_last_flush` is set — after the send completes, not
under the buffer mutex — to the post-send clock reading; when it does not
drain, the state is unchanged and neither the spool nor the network is
touched. -/
theorem attempt_flush_characterization (cfg : Cfg) (force : Bool)
    (now endT : Int) (tr : HttpResult) (s : FlushState) :
    ((attempt_flush_buffer cfg force now endT tr s).posted ≠ none ↔
      (s.buffer ≠ [] ∧ (force = true ∨ cfg.batchSize ≤ s.buffer.length
        ∨ cfg.flushInterval ≤ now - s.lastFlush)))
    ∧ (∀ b, (attempt_flush_buffer cfg force now endT tr s).posted = some b →
        b = s.buffer
        ∧ (attempt_flush_buffer cfg force now endT tr s).state.buffer = []
        ∧ (attempt_flush_buffer cfg force now endT tr s).state.lastFlush = endT
        ∧ (attempt_flush_buffer cfg force now endT tr s).spoolDrained = true)
    ∧ ((attempt_flush_buffer cfg force now endT tr s).posted = none →
        attempt_flush_buffer cfg force now endT tr s = ⟨s, false, none, none⟩) := by
  unfold attempt_flush_buffer
  by_cases h1 : s.buffer = []
  · simp [h1]
  · by_cases h2 : force = false ∧ s.buffer.length < cfg.batchSize
        ∧ now - s.lastFlush < cfg.flushInterval
    · rw [if_neg h1, if_pos h2]
      obtain ⟨hf, hl, ht⟩ := h2
      constructor
      · simp only [ne_eq, not_true_eq_false, false_iff]
        rintro ⟨-, hor | hor | hor⟩
        · rw [hf] at hor; exact Bool.noConfusion hor
        · omega
        · omega
      · simp
    · rw [if_neg h1, if_neg h2]
      rw [Classical.not_and_iff_or_not_not, Classical.not_and_iff_or_not_not] at h2
      by_cases hs : send_batch_http tr = true
      · rw [if_pos hs]
        refine ⟨?_, ?_, ?_⟩
        · simp only [ne_eq, reduceCtorEq, not_false_eq_true, true_iff]
          refine ⟨h1, ?_⟩
          rcases h2 with hf | h2
          · exact Or.inl (by revert hf; cases force <;> simp)
          · rcases h2 with hl | ht
            · exact Or.inr (Or.inl (by omega))
            · exact Or.inr (Or.inr (by omega))
        · intro b hb
          simp only [Option.some.injEq] at hb
          exact ⟨hb.symm, rfl, rfl, rfl⟩
        · intro h; exact absurd h (by simp)
      · rw [if_neg hs]
        refine ⟨?_, ?_, ?_⟩
        · simp only [ne_eq, reduceCtorEq, not_false_eq_true, true_iff]
          refine ⟨h1, ?_⟩
          rcases h2 with hf | h2
          · exact Or.inl (by revert hf; cases force <;> simp)
          · rcases h2 with hl | ht
            · exact Or.inr (Or.inl (by omega))
            · exact Or.inr (Or.inr (by omega))
        · intro b hb
          simp only [Option.some.injEq] at hb
          exact ⟨hb.symm, rfl, rfl, rfl⟩
        · intro h; exact absurd h (by simp)

/-- Witness for C7's amended statement: with defaults, a two-event buffer
whose age trigger has expired is drained in enqueue order, the buffer is
emptied, and `_last_flush` becomes the post-send clock reading. -/
theorem attempt_flush_characterization_witness :
    ((attempt_flush_buffer cfg0 false 10 11 (HttpResult.status 200)
        ⟨[ev0, ev0], 0⟩).posted ≠ none ↔
      (([ev0, ev0] : List Event) ≠ [] ∧ (false = true
        ∨ cfg0.batchSize ≤ ([ev0, ev0] : List Event).length
        ∨ cfg0.flushInterval ≤ (10 : Int) - 0)))
    ∧ (∀ b, (attempt_flush_buffer cfg0 false 10 11 (HttpResult.status 200)
          ⟨[ev0, ev0], 0⟩).posted = some b →
        b = [ev0, ev0]
        ∧ (attempt_flush_buffer cfg0 false 10 11 (HttpResult.status 200)
            ⟨[ev0, ev0], 0⟩).state.buffer = []
        ∧ (attempt_flush_buffer cfg0 false 10 11 (HttpResult.status 200)
            ⟨[ev0, ev0], 0⟩).state.lastFlush = 11
        ∧ (attempt_flush_buffer cfg0 false 10 11 (HttpResult.status 200)
            ⟨[ev0, ev0], 0⟩).spoolDrained = true)
    ∧ ((attempt_flush_buffer cfg0 false 10 11 (HttpResult.status 200)
          ⟨[ev0, ev0], 0⟩).posted = none →
        attempt_flush_buffer cfg0 false 10 11 (HttpResult.status 200)
          ⟨[ev0, ev0], 0⟩ = ⟨⟨[ev0, ev0], 0⟩, false, none, none⟩) :=
  attempt_flush_characterization cfg0 false 10 11 (HttpResult.status 200)
    ⟨[ev0, ev0], 0⟩

/-- C10: when the buffer is empty, `attempt_flush_buffer` — forced or not —
returns immediately without an HTTP send, a spool write, or a spool drain
(line 175 precedes all of them); and every POST body produced from the live
path carries at least one event. -/
theorem no_empty_batch_posted (cfg : Cfg) (force : Bool) (now endT : Int)
    (tr : HttpResult) (s : FlushState) :
    (s.buffer = [] →
      attempt_flush_buffer cfg force now endT tr s = ⟨s, false, none, none⟩)
    ∧ (∀ b, (attempt_flush_buffer cfg force now endT tr s).posted = some b →
        b ≠ []) := by
  constructor
  · intro h
    simp [attempt_flush_buffer, h]
  · intro b hb
    unfold attempt_flush_buffer at hb
    by_cases h1 : s.buffer = []
    · rw [if_pos h1] at hb
      exact absurd hb (by simp)
    · rw [if_neg h1] at hb
      by_cases h2 : force = false ∧ s.buffer.length < cfg.batchSize
          ∧ now - s.lastFlush < cfg.flushInterval
      · rw [if_pos h2] at hb
        exact absurd hb (by simp)
      · rw [if_neg h2] at hb
        by_cases hs : send_batch_http tr = true
        · rw [if_pos hs] at hb
          simp only [Option.some.injEq] at hb
          exact hb ▸ h1
        · rw [if_neg hs] at hb
          simp only [Option.some.injEq] at hb
          exact hb ▸ h1

/-- Witness for C10 at the forced shutdown flush on an empty buffer: nothing
is sent, spooled or drained. -/
theorem no_empty_batch_posted_witness :
    attempt_flush_buffer cfg0 true 50 50 HttpResult.exn ⟨[], 7⟩
      = ⟨⟨[], 7⟩, false, none, none⟩ :=
  (no_empty_batch_posted cfg0 true 50 50 HttpResult.exn ⟨[], 7⟩).1 rfl

/-! ## Follower (`follow`, lines 195-242)

An open file is an inode plus its current content (a list of characters).
The follower state holds the open handle (which, after a rotation, may refer
to a file no longer at the path) and the handle's read position.

`readlineAt` models `fh.readline()` followed by `rstrip` of the trailing
newline (lines 220-222): it returns the next chunk up to and including a
newline — or up to end-of-file — together with the new read position, and
returns nothing at end-of-file.

`followStep` models one iteration of the `while` loop of lines 219-242: if a
line is available it is yielded and the loop continues (lines 220-223);
otherwise the path is stat'ed and, when the inode at the path differs from
the recorded one, the handle is replaced by a fresh open of the path, the new
inode recorded, and the position set by `fh.seek(0, os.SEEK_END)` — the end
of the new file (lines 226-235).  When the inode is unchanged nothing else
happens: the loop has no check of the file size against the read position. -/

structure OpenFile where
  inode : Nat
  content : List Char
deriving DecidableEq

structure FollowerSt where
  handle : OpenFile
  pos : Nat
deriving DecidableEq

/-- `fh.readline()` + `rstrip` of the newline at read position `pos`. -/
def readlineAt (content : List Char) (pos : Nat) : Option (List Char × Nat) :=
  let rest := content.drop pos
  if rest.isEmpty then none
  else
    let line := rest.takeWhile (fun c => c ≠ '\n')
    if line.length = rest.length then some (line, pos + line.length)
    else some (line, pos + line.length + 1)

/-- All lines `readline` would yield from `content` starting at `pos`,
computed with a fuel bound large enough for the whole content. -/
def readLinesFromAux : Nat → List Char → Nat → List (List Char)
  | 0, _, _ => []
  | fuel + 1, content, pos =>
    match readlineAt content pos with
    | none => []
    | some (line, p2) => line :: readLinesFromAux fuel content p2

def readLinesFrom (content : List Char) (pos : Nat) : List (List Char) :=
  readLinesFromAux (content.length + 1) content pos

/-- One iteration of the follower loop (lines 219-242), given the file
currently at the path. -/
def followStep (pathFile : OpenFile) (st : FollowerSt) :
    FollowerSt × Option (List Char) :=
  match readlineAt st.handle.content st.pos with
  | some (line, p2) => (⟨st.handle, p2⟩, some line)
  | none =>
    if pathFile.inode ≠ st.handle.inode then
      (⟨pathFile, pathFile.content.length⟩, none)
    else (st, none)

/-- C1: on rotation the follower does not position the read offset at the
beginning of the new file.  Concrete failing run: the old file (inode 1,
content `w1\nw2\n`) has been read to its end (position 6) and the path now
holds a rotated-in file (inode 2) that already contains `w3\n`.  The
follower detects the inode change and reopens — but `fh.seek(0, os.SEEK_END)`
(line 235) places the read position at 3, the end of the new file, not at 0;
from position 3 no line is ever read, while from position 0 the line `w3`
would be captured.  The first bytes written to the rotated-in file are
therefore lost, contradicting the claim (and spec property P6). -/
theorem rotation_reopen_skips_existing_bytes :
    followStep ⟨2, ['w', '3', '\n']⟩ ⟨⟨1, ['w', '1', '\n', 'w', '2', '\n']⟩, 6⟩
      = (⟨⟨2, ['w', '3', '\n']⟩, 3⟩, none)
    ∧ readLinesFrom ['w', '3', '\n'] 3 = []
    ∧ readLinesFrom ['w', '3', '\n'] 0 = [['w', '3']] := by
  refine ⟨?_, ?_, ?_⟩ <;> decide

/-- C6 counterexample: truncation is not detected.  The followed file (inode
1) is truncated in place to empty content while the follower's read position
is 5; the claim demands that the read position be reset to 0, but
`followStep` leaves the state unchanged: the loop of lines 219-242 compares
inodes only and never compares the file size with the read position. -/
theorem truncation_not_detected :
    followStep ⟨1, []⟩ ⟨⟨1, []⟩, 5⟩ = (⟨⟨1, []⟩, 5⟩, none)
    ∧ (followStep ⟨1, []⟩ ⟨⟨1, []⟩, 5⟩).1.pos ≠ 0
    ∧ followStep ⟨1, ['x', '\n']⟩ ⟨⟨1, ['x', '\n']⟩, 5⟩
        = (⟨⟨1, ['x', '\n']⟩, 5⟩, none) := by
  refine ⟨?_, ?_, ?_⟩ <;> decide

/-- C6 amended: the follower has no truncation handling at all.  Whenever
the file at the path is the follower's own file (same inode, in-place
truncation) and its size has become smaller than the read position, a
follower iteration is a no-op: the position is not reset to 0 and no line is
emitted, so lines written after an in-place truncation are not emitted for
as long as the file stays shorter than the old read position. -/
theorem truncation_is_ignored (pathFile : OpenFile) (st : FollowerSt)
    (hsame : st.handle = pathFile)
    (hsize : pathFile.content.length < st.pos) :
    followStep pathFile st = (st, none) := by
  have hdrop : pathFile.content.drop st.pos = [] :=
    List.drop_eq_nil_of_le (Nat.le_of_lt hsize)
  have hnone : readlineAt pathFile.content st.pos = none := by
    simp [readlineAt, hdrop]
  simp [followStep, hsame, hnone]

/-- Witness for C6's amended statement: the truncated-file iteration from the
counterexample scenario is such a no-op. -/
theorem truncation_is_ignored_witness :
    followStep ⟨1, ['x', '\n']⟩ ⟨⟨1, ['x', '\n']⟩, 9⟩
      = (⟨⟨1, ['x', '\n']⟩, 9⟩, none) :=
  truncation_is_ignored ⟨1, ['x', '\n']⟩ ⟨⟨1, ['x', '\n']⟩, 9⟩ rfl (by decide)

/-! ## Follower startup (`follow` lines 199-217, `follower_thread` 244-254)

The open phase of `follow`: the first `open` (line 200) either succeeds,
raises `FileNotFoundError` (caught, line 201), or raises some other error —
which is not caught inside `follow` and propagates to `follower_thread`,
whose `except` clause logs it and lets the thread exit (lines 251-254).
After `FileNotFoundError` the follower polls for existence every 2 s
(lines 203-206); `appears` abstracts whether the file appears before the
shutdown flag is set.  When it appears, one further `open` is attempted
(line 208); if that single attempt fails for any reason the generator logs
and returns (lines 209-211) — the follower is over even though shutdown was
never signalled. -/

inductive OpenResult where
  | ok (inode : Nat) : OpenResult
  | fileNotFound : OpenResult
  | otherError : OpenResult
deriving DecidableEq

inductive FollowOutcome where
  /-- the steady-state read loop was entered with this inode recorded -/
  | running (inode : Nat) : FollowOutcome
  /-- `follow` returned without the shutdown flag being set (line 211) -/
  | exited : FollowOutcome
  /-- an uncaught exception propagated to `follower_thread` (line 251) -/
  | raised : FollowOutcome
  /-- the wait-for-appear loop was ended by the shutdown flag -/
  | shutdownExit : FollowOutcome
deriving DecidableEq

/-- The open phase of `follow` (lines 199-217). -/
def followOpenPhase (first : OpenResult) (appears : Bool)
    (second : OpenResult) : FollowOutcome :=
  match first with
  | OpenResult.ok i => FollowOutcome.running i
  | OpenResult.otherError => FollowOutcome.raised
  | OpenResult.fileNotFound =>
    if appears then
      match second with
      | OpenResult.ok i => FollowOutcome.running i
      | _ => FollowOutcome.exited
    else FollowOutcome.shutdownExit

/-- C2 counterexample: a follower does terminate on open errors without the
shutdown signal.  If the file is initially missing, later appears, and the
single reopen attempted after the wait fails (e.g. permission denied),
`follow` returns (line 211) — `exited`, not a shutdown exit; and a
non-file-not-found error on the very first open propagates out of `follow`
and ends the follower thread (line 251).  Neither path retries with
backoff. -/
theorem follow_open_gives_up :
    followOpenPhase OpenResult.fileNotFound true OpenResult.otherError
      = FollowOutcome.exited
    ∧ FollowOutcome.exited ≠ FollowOutcome.shutdownExit
    ∧ followOpenPhase OpenResult.otherError true (OpenResult.ok 1)
      = FollowOutcome.raised := by
  refine ⟨?_, ?_, ?_⟩ <;> decide

/-- C2 amended: an initially missing file is indeed polled for indefinitely
(every ≈2 s) until it appears or shutdown is signalled, and in the latter
case the follower stops because of shutdown; but the follower is not
otherwise error-proof: its open phase ends without shutdown exactly when the
first open raises a non-file-not-found error (the exception propagates and
the thread exits) or when the file appears and the single post-wait open
attempt fails.  In every remaining case the follower enters its read loop
with the opened file's inode recorded. -/
theorem follow_open_exit_iff (first : OpenResult) (appears : Bool)
    (second : OpenResult) :
    (followOpenPhase first appears second = FollowOutcome.raised ↔
      first = OpenResult.otherError)
    ∧ (followOpenPhase first appears second = FollowOutcome.exited ↔
      (first = OpenResult.fileNotFound ∧ appears = true
        ∧ ∀ i, second ≠ OpenResult.ok i))
    ∧ (followOpenPhase first appears second = FollowOutcome.shutdownExit ↔
      (first = OpenResult.fileNotFound ∧ appears = false)) := by
  cases first <;> cases appears <;> cases second <;>
    simp [followOpenPhase]

/-- Witness for C2's amended statement at the counterexample trace: the open
phase ends in `exited` precisely because the file appeared and the post-wait
open failed. -/
theorem follow_open_exit_iff_witness :
    (followOpenPhase OpenResult.fileNotFound true OpenResult.otherError
        = FollowOutcome.raised ↔
      OpenResult.fileNotFound = OpenResult.otherError)
    ∧ (followOpenPhase OpenResult.fileNotFound true OpenResult.otherError
        = FollowOutcome.exited ↔
      (OpenResult.fileNotFound = OpenResult.fileNotFound ∧ true = true
        ∧ ∀ i, OpenResult.otherError ≠ OpenResult.ok i))
    ∧ (followOpenPhase OpenResult.fileNotFound true OpenResult.otherError
        = FollowOutcome.shutdownExit ↔
      (OpenResult.fileNotFound = OpenResult.fileNotFound ∧ true = false)) :=
  follow_open_exit_iff OpenResult.fileNotFound true OpenResult.otherError

end Agent
